import Mathlib

/-!
# Verification of the devops-toolkit compliance engine

Shallow embedding of the compliance rule-evaluation subsystem of the
`devops-toolkit` repository: the result model (`pkg/compliance/types.go`),
the result filter (`K8sChecker.filterResults`), the report builder
(`runReport` in `cmd/compliance/report.go`), the JUnit renderer
(`generateJUnitReport`), the built-in policy catalog
(`pkg/compliance/policies.go`), and the three checkers (Kubernetes,
Docker, file).

External I/O (Kubernetes API, Docker API, filesystem) is abstracted into
explicit input values; the rule-evaluation logic operating on those
inputs is translated statement by statement from the Go source.
-/

namespace DevopsToolkit

/-- `CheckStatus` from `pkg/compliance/types.go`: the four declared
status constants `passed`, `failed`, `skipped`, `warning`. -/
inductive CheckStatus where
  | passed
  | failed
  | skipped
  | warning
deriving DecidableEq, Repr

/-- `CheckResult` from `pkg/compliance/types.go`. -/
structure CheckResult where
  ruleID : String
  ruleName : String
  category : String
  severity : String
  status : CheckStatus
  resource : String
  message : String
  remediation : String := ""
deriving DecidableEq, Repr

/-- `CheckOptions` from `pkg/compliance/types.go`. -/
structure CheckOptions where
  ns : String := ""
  image : String := ""
  path : String := ""
  skipRules : List String := []
  onlyRules : List String := []
  minSeverity : String := ""
deriving DecidableEq, Repr

/-- `Policy` from `pkg/compliance/types.go`. -/
structure Policy where
  id : String
  name : String
  category : String
  severity : String
  description : String
  remediation : String
deriving DecidableEq, Repr

/-- Model of a Go `float64` value restricted to what the score
computation can produce: a finite value (represented exactly as a
rational; IEEE rounding is not modelled), `NaN` (from `0.0/0.0`), or
`+Inf` (from `x/0.0` with `x > 0`). -/
inductive GoFloat where
  | val (q : ℚ)
  | nan
  | inf
deriving DecidableEq, Repr

/-- `ReportSummary` from `pkg/compliance/types.go`. -/
structure ReportSummary where
  total : Nat := 0
  passed : Nat := 0
  failed : Nat := 0
  skipped : Nat := 0
  score : GoFloat := .val 0
deriving DecidableEq, Repr

/-- `Report` from `pkg/compliance/types.go` (the `time.Time` timestamp is
abstracted as a number). -/
structure Report where
  title : String
  generatedAt : Nat
  summary : ReportSummary
  results : List CheckResult
deriving DecidableEq, Repr

/-! ## Filter engine (`K8sChecker.filterResults`, `meetsMinSeverity`) -/

/-- `meetsMinSeverity`'s `levels` map from `pkg/compliance/types.go`:
a Go map lookup returning the zero value `0` for any key other than the
four recognized severities. -/
def severityLevel (s : String) : Nat :=
  if s = "low" then 1
  else if s = "medium" then 2
  else if s = "high" then 3
  else if s = "critical" then 4
  else 0

/-- `meetsMinSeverity` from `pkg/compliance/types.go`. -/
def meetsMinSeverity (severity minSeverity : String) : Bool :=
  severityLevel severity ≥ severityLevel minSeverity

/-- The per-result predicate of the loop body of `K8sChecker.filterResults`:
a result is appended iff it is not skip-listed, passes the only-list
check, and meets the minimum severity. -/
def keepResult (opts : CheckOptions) (r : CheckResult) : Bool :=
  ¬ opts.skipRules.any (fun skipRule => r.ruleID = skipRule) &&
  (opts.onlyRules.length = 0 || opts.onlyRules.any (fun onlyRule => r.ruleID = onlyRule)) &&
  (opts.minSeverity = "" || meetsMinSeverity r.severity opts.minSeverity)

/-- `K8sChecker.filterResults` from `pkg/compliance/types.go`, including
the fast path returning the input unchanged when all three controls are
empty. -/
def filterResults (opts : CheckOptions) (results : List CheckResult) : List CheckResult :=
  if opts.skipRules.length = 0 ∧ opts.onlyRules.length = 0 ∧ opts.minSeverity = "" then
    results
  else
    results.filter (keepResult opts)

/-! ## Report builder (`runReport` summary computation,
`cmd/compliance/report.go` lines 73-87 and the identical code in the
second `runReport` variant) -/

/-- One step of the summary loop `for _, r := range results { switch r.Status ... }`:
`warning` matches no case and increments nothing. -/
def summaryStep (acc : ReportSummary) (r : CheckResult) : ReportSummary :=
  match r.status with
  | .passed => { acc with passed := acc.passed + 1 }
  | .failed => { acc with failed := acc.failed + 1 }
  | .skipped => { acc with skipped := acc.skipped + 1 }
  | .warning => acc

/-- The summary loop of `runReport` starting from the zero-valued
`ReportSummary`. -/
def summarize (results : List CheckResult) : ReportSummary :=
  results.foldl summaryStep {}

/-- Go `float64(a) / float64(b) * 100` for the score expression:
division by zero yields `NaN` when the numerator is `0` and `+Inf`
otherwise; nonzero denominators give the exact rational value. -/
def goScoreExpr (passed : Nat) (denom : Int) : GoFloat :=
  if denom = 0 then
    (if passed = 0 then .nan else .inf)
  else
    .val ((passed : ℚ) / (denom : ℚ) * 100)

/-- The report construction in `runReport`: builds the `Report`, runs the
summary loop, sets `Total = len(results)` and, only when `Total > 0`,
overwrites the zero score with `float64(Passed) / float64(Total-Skipped) * 100`. -/
def buildReport (title : String) (generatedAt : Nat) (results : List CheckResult) : Report :=
  let s := summarize results
  let total := results.length
  let score :=
    if total > 0 then goScoreExpr s.passed ((total : Int) - (s.skipped : Int))
    else s.score
  { title := title
    generatedAt := generatedAt
    summary := { s with total := total, score := score }
    results := results }

/-! ## Built-in policy catalog (`pkg/compliance/policies.go`) -/

/-- `GetBuiltinPolicies` from `pkg/compliance/policies.go`: the complete
static catalog, entry for entry. -/
def GetBuiltinPolicies : List Policy :=
  [ -- Kubernetes Security
    { id := "K8S-SEC-001", name := "No Privileged Containers",
      category := "Kubernetes Security", severity := "critical",
      description := "Containers should not run in privileged mode as it grants full host access",
      remediation := "Set securityContext.privileged to false" },
    { id := "K8S-SEC-002", name := "Run as Non-Root",
      category := "Kubernetes Security", severity := "high",
      description := "Containers should run as non-root user to limit potential damage",
      remediation := "Set securityContext.runAsNonRoot to true and specify runAsUser" },
    { id := "K8S-SEC-003", name := "Read-Only Root Filesystem",
      category := "Kubernetes Security", severity := "medium",
      description := "Container root filesystem should be read-only to prevent modifications",
      remediation := "Set securityContext.readOnlyRootFilesystem to true" },
    { id := "K8S-SEC-004", name := "No Host Network",
      category := "Kubernetes Security", severity := "high",
      description := "Pods should not use the host network namespace",
      remediation := "Set hostNetwork to false" },
    { id := "K8S-SEC-005", name := "No Host PID",
      category := "Kubernetes Security", severity := "high",
      description := "Pods should not share the host PID namespace",
      remediation := "Set hostPID to false" },
    -- Kubernetes Best Practices
    { id := "K8S-IMG-001", name := "No Latest Tag",
      category := "Kubernetes Best Practices", severity := "medium",
      description := "Images should use specific tags instead of 'latest'",
      remediation := "Use specific version tags for container images" },
    { id := "K8S-PROBE-001", name := "Liveness Probe",
      category := "Kubernetes Best Practices", severity := "medium",
      description := "Containers should have liveness probes for automatic restart",
      remediation := "Add livenessProbe to container spec" },
    { id := "K8S-PROBE-002", name := "Readiness Probe",
      category := "Kubernetes Best Practices", severity := "medium",
      description := "Containers should have readiness probes for traffic management",
      remediation := "Add readinessProbe to container spec" },
    -- Kubernetes Resources
    { id := "K8S-RES-001", name := "CPU Limits",
      category := "Kubernetes Resources", severity := "medium",
      description := "Containers should have CPU limits to prevent resource starvation",
      remediation := "Set resources.limits.cpu" },
    { id := "K8S-RES-002", name := "Memory Limits",
      category := "Kubernetes Resources", severity := "high",
      description := "Containers should have memory limits to prevent OOM issues",
      remediation := "Set resources.limits.memory" },
    -- Kubernetes Network
    { id := "K8S-NET-001", name := "Network Policies",
      category := "Kubernetes Network", severity := "medium",
      description := "Namespaces should have NetworkPolicies to restrict traffic",
      remediation := "Define NetworkPolicies for the namespace" },
    -- Kubernetes RBAC
    { id := "K8S-RBAC-001", name := "Cluster Admin Bindings",
      category := "Kubernetes RBAC", severity := "high",
      description := "Avoid granting cluster-admin role to non-system users",
      remediation := "Use more restrictive roles" },
    -- Docker Security
    { id := "DOCKER-SEC-001", name := "No Privileged Containers",
      category := "Docker Security", severity := "critical",
      description := "Containers should not run in privileged mode",
      remediation := "Remove --privileged flag" },
    { id := "DOCKER-SEC-002", name := "Non-Root User",
      category := "Docker Security", severity := "high",
      description := "Containers should run as non-root user",
      remediation := "Use USER directive in Dockerfile or --user flag" },
    { id := "DOCKER-SEC-003", name := "No Host Network",
      category := "Docker Security", severity := "high",
      description := "Containers should not use host network",
      remediation := "Use bridge or custom network" },
    { id := "DOCKER-SEC-004", name := "No Host PID",
      category := "Docker Security", severity := "high",
      description := "Containers should not share host PID namespace",
      remediation := "Remove --pid=host flag" },
    { id := "DOCKER-SEC-005", name := "No Dangerous Capabilities",
      category := "Docker Security", severity := "high",
      description := "Containers should not have dangerous Linux capabilities",
      remediation := "Remove unnecessary --cap-add flags" },
    { id := "DOCKER-SEC-006", name := "Read-Only Root Filesystem",
      category := "Docker Security", severity := "medium",
      description := "Container root filesystem should be read-only",
      remediation := "Use --read-only flag" },
    -- Docker Resources
    { id := "DOCKER-RES-001", name := "Memory Limits",
      category := "Docker Resources", severity := "medium",
      description := "Containers should have memory limits",
      remediation := "Set --memory flag" },
    { id := "DOCKER-RES-002", name := "CPU Limits",
      category := "Docker Resources", severity := "low",
      description := "Containers should have CPU limits",
      remediation := "Set --cpus or --cpu-quota flag" },
    -- Docker Configuration
    { id := "DOCKER-CFG-001", name := "Restart Policy",
      category := "Docker Configuration", severity := "low",
      description := "Containers should have a restart policy",
      remediation := "Set --restart=unless-stopped" },
    { id := "DOCKER-CFG-002", name := "Health Check",
      category := "Docker Configuration", severity := "medium",
      description := "Containers should have health checks",
      remediation := "Add HEALTHCHECK in Dockerfile or --health-cmd" },
    -- Docker Images
    { id := "DOCKER-IMG-001", name := "No Latest Tag",
      category := "Docker Images", severity := "medium",
      description := "Images should use specific tags",
      remediation := "Use specific version tags" },
    { id := "DOCKER-IMG-002", name := "Image Size",
      category := "Docker Images", severity := "low",
      description := "Images should not be excessively large",
      remediation := "Use multi-stage builds or smaller base images" },
    { id := "DOCKER-IMG-003", name := "Non-Root User in Image",
      category := "Docker Images", severity := "medium",
      description := "Images should define a non-root user",
      remediation := "Add USER directive in Dockerfile" },
    -- File Compliance
    { id := "FILE-K8S-001", name := "No Latest Tag in Manifests",
      category := "File Compliance", severity := "medium",
      description := "Kubernetes manifests should use specific image tags",
      remediation := "Use specific version tags" },
    { id := "FILE-K8S-002", name := "Resource Limits in Manifests",
      category := "File Compliance", severity := "medium",
      description := "Kubernetes manifests should define resource limits",
      remediation := "Add resources.limits" },
    { id := "FILE-K8S-003", name := "Security Context in Manifests",
      category := "File Compliance", severity := "high",
      description := "Kubernetes manifests should define security context",
      remediation := "Add securityContext" },
    { id := "FILE-DOCKER-003", name := "USER in Dockerfile",
      category := "File Compliance", severity := "high",
      description := "Dockerfiles should define a non-root USER",
      remediation := "Add USER directive" },
    { id := "FILE-DOCKER-004", name := "HEALTHCHECK in Dockerfile",
      category := "File Compliance", severity := "medium",
      description := "Dockerfiles should define a HEALTHCHECK",
      remediation := "Add HEALTHCHECK directive" },
    { id := "FILE-COMPOSE-001", name := "No Privileged in Compose",
      category := "File Compliance", severity := "critical",
      description := "Docker Compose services should not be privileged",
      remediation := "Remove privileged: true" } ]

/-! ## Kubernetes checker (`K8sChecker` in `pkg/compliance/types.go`)

The Kubernetes API is abstracted: a pod is the record of exactly the
fields the checker reads. `cpuLimitIsZero` etc. model
`Resources.Limits.Cpu().IsZero()`; `hasLivenessProbe` models
`LivenessProbe != nil`. -/

/-- Whether the second character list is an initial segment of the
first. -/
def listStartsWith : List Char → List Char → Bool
  | _, [] => true
  | [], _ :: _ => false
  | a :: as, b :: bs => a == b && listStartsWith as bs

/-- Whether the second character list occurs contiguously inside the
first. -/
def listContainsSeq : List Char → List Char → Bool
  | [], sub => listStartsWith [] sub
  | a :: as, sub => listStartsWith (a :: as) sub || listContainsSeq as sub

/-- Go `strings.Contains s sub`. -/
def goContains (s sub : String) : Bool :=
  listContainsSeq s.data sub.data

/-- Go `strings.HasPrefix s pre`. -/
def goStartsWith (s pre : String) : Bool :=
  listStartsWith s.data pre.data

/-- Go `strings.HasSuffix s suffix`. -/
def goHasSuffix (s suffix : String) : Bool :=
  listStartsWith s.data.reverse suffix.data.reverse

/-- The fields of `corev1.SecurityContext` read by the checker. -/
structure K8sSecurityContext where
  privileged : Option Bool := none
  runAsNonRoot : Option Bool := none
  readOnlyRootFilesystem : Option Bool := none
deriving DecidableEq, Repr

/-- The fields of `corev1.Container` read by the checker. -/
structure K8sContainer where
  name : String
  image : String := ""
  securityContext : Option K8sSecurityContext := none
  imagePullPolicy : String := ""
  hasLivenessProbe : Bool := false
  hasReadinessProbe : Bool := false
  cpuLimitIsZero : Bool := true
  memLimitIsZero : Bool := true
  cpuRequestIsZero : Bool := true
  memRequestIsZero : Bool := true
deriving DecidableEq, Repr

/-- The fields of `corev1.Pod` read by the checker. -/
structure K8sPod where
  ns : String
  name : String
  containers : List K8sContainer := []
  hostNetwork : Bool := false
  hostPID : Bool := false
deriving DecidableEq, Repr

/-- Go `container.SecurityContext != nil && container.SecurityContext.Privileged != nil && *container.SecurityContext.Privileged`. -/
def scPrivileged (c : K8sContainer) : Bool :=
  match c.securityContext with
  | some sc => sc.privileged.getD false
  | none => false

/-- Negation of Go `container.SecurityContext == nil || container.SecurityContext.RunAsNonRoot == nil || !*container.SecurityContext.RunAsNonRoot`. -/
def scRunAsNonRoot (c : K8sContainer) : Bool :=
  match c.securityContext with
  | some sc => sc.runAsNonRoot.getD false
  | none => false

/-- Negation of Go `container.SecurityContext == nil || container.SecurityContext.ReadOnlyRootFilesystem == nil || !*container.SecurityContext.ReadOnlyRootFilesystem`. -/
def scReadOnlyRootFS (c : K8sContainer) : Bool :=
  match c.securityContext with
  | some sc => sc.readOnlyRootFilesystem.getD false
  | none => false

/-- The per-container body of the container loop in `K8sChecker.checkPodSecurity`
(rules K8S-SEC-001, K8S-SEC-002, K8S-SEC-003, emitted in source order). -/
def podSecContainerChecks (resource : String) (container : K8sContainer) : List CheckResult :=
  (if scPrivileged container then
    [{ ruleID := "K8S-SEC-001", ruleName := "No Privileged Containers",
       category := "Kubernetes Security", severity := "critical", status := .failed,
       resource := resource,
       message := "Container '" ++ container.name ++ "' is running in privileged mode",
       remediation := "Set securityContext.privileged to false" }]
  else
    [{ ruleID := "K8S-SEC-001", ruleName := "No Privileged Containers",
       category := "Kubernetes Security", severity := "critical", status := .passed,
       resource := resource,
       message := "Container '" ++ container.name ++ "' is not privileged" }])
  ++
  (if ¬ scRunAsNonRoot container then
    [{ ruleID := "K8S-SEC-002", ruleName := "Run as Non-Root",
       category := "Kubernetes Security", severity := "high", status := .failed,
       resource := resource,
       message := "Container '" ++ container.name ++ "' may run as root",
       remediation := "Set securityContext.runAsNonRoot to true" }]
  else [])
  ++
  (if ¬ scReadOnlyRootFS container then
    [{ ruleID := "K8S-SEC-003", ruleName := "Read-Only Root Filesystem",
       category := "Kubernetes Security", severity := "medium", status := .failed,
       resource := resource,
       message := "Container '" ++ container.name ++ "' has writable root filesystem",
       remediation := "Set securityContext.readOnlyRootFilesystem to true" }]
  else [])

/-- The container loop of `K8sChecker.checkPodSecurity` for one pod. -/
def podSecContainersLoop (resource : String) : List K8sContainer → List CheckResult
  | [] => []
  | c :: cs => podSecContainerChecks resource c ++ podSecContainersLoop resource cs

/-- The per-pod body of `K8sChecker.checkPodSecurity`: the container loop
followed by the host-network (K8S-SEC-004) and host-PID (K8S-SEC-005)
pod-level checks. -/
def podSecPodChecks (pod : K8sPod) : List CheckResult :=
  let resource := pod.ns ++ "/" ++ pod.name
  podSecContainersLoop resource pod.containers
  ++
  (if pod.hostNetwork then
    [{ ruleID := "K8S-SEC-004", ruleName := "No Host Network",
       category := "Kubernetes Security", severity := "high", status := .failed,
       resource := resource,
       message := "Pod is using host network",
       remediation := "Set hostNetwork to false" }]
  else [])
  ++
  (if pod.hostPID then
    [{ ruleID := "K8S-SEC-005", ruleName := "No Host PID",
       category := "Kubernetes Security", severity := "high", status := .failed,
       resource := resource,
       message := "Pod is using host PID namespace",
       remediation := "Set hostPID to false" }]
  else [])

/-- `K8sChecker.checkPodSecurity` over a listed set of pods. -/
def checkPodSecurity : List K8sPod → List CheckResult
  | [] => []
  | pod :: pods => podSecPodChecks pod ++ checkPodSecurity pods

/-- The per-container body of `K8sChecker.checkContainers`
(K8S-IMG-001, K8S-IMG-002, K8S-PROBE-001, K8S-PROBE-002). Note that the
image-pull-policy rule K8S-IMG-002 appends a `passed` result when the
policy is `Always` and nothing otherwise. -/
def containersChecks (resource : String) (container : K8sContainer) : List CheckResult :=
  (if goHasSuffix container.image ":latest" || ¬ goContains container.image ":" then
    [{ ruleID := "K8S-IMG-001", ruleName := "No Latest Tag",
       category := "Kubernetes Best Practices", severity := "medium", status := .failed,
       resource := resource,
       message := "Container '" ++ container.name ++ "' uses latest or no tag: " ++ container.image,
       remediation := "Use specific image tags" }]
  else [])
  ++
  (if container.imagePullPolicy = "Always" then
    [{ ruleID := "K8S-IMG-002", ruleName := "Image Pull Policy",
       category := "Kubernetes Best Practices", severity := "low", status := .passed,
       resource := resource,
       message := "Container '" ++ container.name ++ "' has ImagePullPolicy: Always" }]
  else [])
  ++
  (if ¬ container.hasLivenessProbe then
    [{ ruleID := "K8S-PROBE-001", ruleName := "Liveness Probe",
       category := "Kubernetes Best Practices", severity := "medium", status := .failed,
       resource := resource,
       message := "Container '" ++ container.name ++ "' has no liveness probe",
       remediation := "Add a livenessProbe to the container" }]
  else [])
  ++
  (if ¬ container.hasReadinessProbe then
    [{ ruleID := "K8S-PROBE-002", ruleName := "Readiness Probe",
       category := "Kubernetes Best Practices", severity := "medium", status := .failed,
       resource := resource,
       message := "Container '" ++ container.name ++ "' has no readiness probe",
       remediation := "Add a readinessProbe to the container" }]
  else [])

/-- The container loop of `K8sChecker.checkContainers` for one pod. -/
def containersLoop (resource : String) : List K8sContainer → List CheckResult
  | [] => []
  | c :: cs => containersChecks resource c ++ containersLoop resource cs

/-- `K8sChecker.checkContainers` over a listed set of pods. -/
def checkContainers : List K8sPod → List CheckResult
  | [] => []
  | pod :: pods =>
    containersLoop (pod.ns ++ "/" ++ pod.name) pod.containers ++ checkContainers pods

/-- The per-container body of `K8sChecker.checkResourceLimits`
(K8S-RES-001 … K8S-RES-004, all failure-only). -/
def resourceLimitChecks (resource : String) (container : K8sContainer) : List CheckResult :=
  (if container.cpuLimitIsZero then
    [{ ruleID := "K8S-RES-001", ruleName := "CPU Limits",
       category := "Kubernetes Resources", severity := "medium", status := .failed,
       resource := resource,
       message := "Container '" ++ container.name ++ "' has no CPU limit",
       remediation := "Set resources.limits.cpu" }]
  else [])
  ++
  (if container.memLimitIsZero then
    [{ ruleID := "K8S-RES-002", ruleName := "Memory Limits",
       category := "Kubernetes Resources", severity := "high", status := .failed,
       resource := resource,
       message := "Container '" ++ container.name ++ "' has no memory limit",
       remediation := "Set resources.limits.memory" }]
  else [])
  ++
  (if container.cpuRequestIsZero then
    [{ ruleID := "K8S-RES-003", ruleName := "CPU Requests",
       category := "Kubernetes Resources", severity := "low", status := .failed,
       resource := resource,
       message := "Container '" ++ container.name ++ "' has no CPU request",
       remediation := "Set resources.requests.cpu" }]
  else [])
  ++
  (if container.memRequestIsZero then
    [{ ruleID := "K8S-RES-004", ruleName := "Memory Requests",
       category := "Kubernetes Resources", severity := "low", status := .failed,
       resource := resource,
       message := "Container '" ++ container.name ++ "' has no memory request",
       remediation := "Set resources.requests.memory" }]
  else [])

/-- The container loop of `K8sChecker.checkResourceLimits` for one pod. -/
def resourceLimitsLoop (resource : String) : List K8sContainer → List CheckResult
  | [] => []
  | c :: cs => resourceLimitChecks resource c ++ resourceLimitsLoop resource cs

/-- `K8sChecker.checkResourceLimits` over a listed set of pods. -/
def checkResourceLimits : List K8sPod → List CheckResult
  | [] => []
  | pod :: pods =>
    resourceLimitsLoop (pod.ns ++ "/" ++ pod.name) pod.containers ++ checkResourceLimits pods

/-- A namespace as seen by `K8sChecker.checkNetworkPolicies`:
`networkPolicies = none` models a failing `NetworkPolicies().List` call
for that namespace (`continue`), `some n` a successful call returning
`n` policies. -/
structure K8sNamespace where
  name : String
  networkPolicies : Option Nat := some 0
deriving DecidableEq, Repr

/-- `K8sChecker.checkNetworkPolicies` (rule K8S-NET-001): skips
`kube-` namespaces, applies the namespace option filter, and emits one
failed or passed result per remaining namespace whose policy listing
succeeds. -/
def checkNetworkPolicies (optsNs : String) : List K8sNamespace → List CheckResult
  | [] => []
  | ns :: rest =>
    (if goStartsWith ns.name "kube-" then []
     else if optsNs ≠ "" ∧ ns.name ≠ optsNs then []
     else
       match ns.networkPolicies with
       | none => []
       | some count =>
         if count = 0 then
           [{ ruleID := "K8S-NET-001", ruleName := "Network Policies",
              category := "Kubernetes Network", severity := "medium", status := .failed,
              resource := ns.name,
              message := "Namespace '" ++ ns.name ++ "' has no NetworkPolicies",
              remediation := "Define NetworkPolicies to restrict pod traffic" }]
         else
           [{ ruleID := "K8S-NET-001", ruleName := "Network Policies",
              category := "Kubernetes Network", severity := "medium", status := .passed,
              resource := ns.name,
              message := "Namespace '" ++ ns.name ++ "' has " ++ toString count ++ " NetworkPolicies" }])
    ++ checkNetworkPolicies optsNs rest

/-- A cluster role binding as seen by `K8sChecker.checkRBAC`. -/
structure ClusterRoleBinding where
  name : String
  roleRefName : String
deriving DecidableEq, Repr

/-- `K8sChecker.checkRBAC` (rule K8S-RBAC-001). -/
def checkRBAC : List ClusterRoleBinding → List CheckResult
  | [] => []
  | b :: bs =>
    (if b.roleRefName = "cluster-admin" then
      (if goStartsWith b.name "system:" then []
       else
         [{ ruleID := "K8S-RBAC-001", ruleName := "Cluster Admin Bindings",
            category := "Kubernetes RBAC", severity := "high", status := .failed,
            resource := b.name,
            message := "ClusterRoleBinding '" ++ b.name ++ "' grants cluster-admin",
            remediation := "Use more restrictive roles" }])
    else [])
    ++ checkRBAC bs

/-- The external inputs of one `K8sChecker.Run` call: whether the client
initialises, and the outcome of each sub-check's API listing (`Except`
error = the sub-check's query fails and its results are dropped). -/
structure K8sEnv where
  clientOk : Bool := true
  podsForSecurity : Except Unit (List K8sPod) := .ok []
  podsForContainers : Except Unit (List K8sPod) := .ok []
  podsForResources : Except Unit (List K8sPod) := .ok []
  namespaces : Except Unit (List K8sNamespace) := .ok []
  bindings : Except Unit (List ClusterRoleBinding) := .ok []

/-- `K8sChecker.Run`: aborts when the client cannot be initialised,
swallows each sub-check's error, concatenates in source order and applies
the result filter. -/
def k8sRun (env : K8sEnv) (opts : CheckOptions) : Except Unit (List CheckResult) :=
  if ¬ env.clientOk then .error ()
  else
    let results :=
      (match env.podsForSecurity with
       | .ok pods => checkPodSecurity pods
       | .error _ => [])
      ++ (match env.podsForContainers with
          | .ok pods => checkContainers pods
          | .error _ => [])
      ++ (match env.podsForResources with
          | .ok pods => checkResourceLimits pods
          | .error _ => [])
      ++ (match env.namespaces with
          | .ok nss => checkNetworkPolicies opts.ns nss
          | .error _ => [])
      ++ (match env.bindings with
          | .ok bs => checkRBAC bs
          | .error _ => [])
    .ok (filterResults opts results)

/-! ## Docker checker (`DockerChecker` in the compliance package)

The Docker API is abstracted: a container entry carries its `Names`
slice and the outcome of its `ContainerInspect` call (`none` models an
inspect error, which the loop skips with `continue`). -/

/-- The fields of the `ContainerInspect` response read by
`DockerChecker.checkContainerSecurity`. -/
structure DockerContainerInspect where
  privileged : Bool := false
  usernsMode : String := ""
  configUser : String := ""
  networkMode : String := ""
  pidMode : String := ""
  capAdd : List String := []
  memory : Int := 0
  cpuQuota : Int := 0
  nanoCPUs : Int := 0
  restartPolicyName : String := ""
  healthcheckTest : Option (List String) := none
  readonlyRootfs : Bool := false
deriving DecidableEq, Repr

/-- One entry of the `ContainerList` response. -/
structure DockerContainerEntry where
  names : List String := []
  inspect : Option DockerContainerInspect := none
deriving DecidableEq, Repr

/-- `isDangerousCap` from the Docker checker. -/
def isDangerousCap (cap : String) : Bool :=
  [ "SYS_ADMIN", "SYS_PTRACE", "NET_ADMIN", "SYS_MODULE",
    "SYS_RAWIO", "SYS_BOOT", "MAC_ADMIN", "MAC_OVERRIDE" ].any (fun d => cap = d)

/-- The capability loop of rule DOCKER-SEC-005: one failed result per
dangerous capability in `CapAdd`. -/
def capAddLoop (name : String) : List String → List CheckResult
  | [] => []
  | cap :: caps =>
    (if isDangerousCap cap then
      [{ ruleID := "DOCKER-SEC-005", ruleName := "No Dangerous Capabilities",
         category := "Docker Security", severity := "high", status := .failed,
         resource := name,
         message := "Container has dangerous capability: " ++ cap,
         remediation := "Remove unnecessary capabilities" }]
    else [])
    ++ capAddLoop name caps

/-- The per-container rule block of `DockerChecker.checkContainerSecurity`,
in source order. Only DOCKER-SEC-001 has a passed branch. -/
def dockerContainerChecks (name : String) (inspect : DockerContainerInspect) : List CheckResult :=
  (if inspect.privileged then
    [{ ruleID := "DOCKER-SEC-001", ruleName := "No Privileged Containers",
       category := "Docker Security", severity := "critical", status := .failed,
       resource := name,
       message := "Container is running in privileged mode",
       remediation := "Remove --privileged flag" }]
  else
    [{ ruleID := "DOCKER-SEC-001", ruleName := "No Privileged Containers",
       category := "Docker Security", severity := "critical", status := .passed,
       resource := name,
       message := "Container is not running in privileged mode" }])
  ++
  (if (inspect.usernsMode = "" ∨ inspect.usernsMode = "host") ∧
      (inspect.configUser = "" ∨ inspect.configUser = "root" ∨ inspect.configUser = "0") then
    [{ ruleID := "DOCKER-SEC-002", ruleName := "Non-Root User",
       category := "Docker Security", severity := "high", status := .failed,
       resource := name,
       message := "Container is running as root",
       remediation := "Use USER directive in Dockerfile or --user flag" }]
  else [])
  ++
  (if inspect.networkMode = "host" then
    [{ ruleID := "DOCKER-SEC-003", ruleName := "No Host Network",
       category := "Docker Security", severity := "high", status := .failed,
       resource := name,
       message := "Container is using host network",
       remediation := "Use bridge or custom network" }]
  else [])
  ++
  (if inspect.pidMode = "host" then
    [{ ruleID := "DOCKER-SEC-004", ruleName := "No Host PID",
       category := "Docker Security", severity := "high", status := .failed,
       resource := name,
       message := "Container is using host PID namespace",
       remediation := "Remove --pid=host flag" }]
  else [])
  ++ capAddLoop name inspect.capAdd
  ++
  (if inspect.memory = 0 then
    [{ ruleID := "DOCKER-RES-001", ruleName := "Memory Limits",
       category := "Docker Resources", severity := "medium", status := .failed,
       resource := name,
       message := "Container has no memory limit",
       remediation := "Set --memory flag" }]
  else [])
  ++
  (if inspect.cpuQuota = 0 ∧ inspect.nanoCPUs = 0 then
    [{ ruleID := "DOCKER-RES-002", ruleName := "CPU Limits",
       category := "Docker Resources", severity := "low", status := .failed,
       resource := name,
       message := "Container has no CPU limit",
       remediation := "Set --cpus or --cpu-quota flag" }]
  else [])
  ++
  (if inspect.restartPolicyName = "" ∨ inspect.restartPolicyName = "no" then
    [{ ruleID := "DOCKER-CFG-001", ruleName := "Restart Policy",
       category := "Docker Configuration", severity := "low", status := .failed,
       resource := name,
       message := "Container has no restart policy",
       remediation := "Set --restart=unless-stopped or similar" }]
  else [])
  ++
  (if (match inspect.healthcheckTest with
       | none => true
       | some test => test.length = 0 : Bool) then
    [{ ruleID := "DOCKER-CFG-002", ruleName := "Health Check",
       category := "Docker Configuration", severity := "medium", status := .failed,
       resource := name,
       message := "Container has no health check",
       remediation := "Add HEALTHCHECK in Dockerfile or --health-cmd flag" }]
  else [])
  ++
  (if ¬ inspect.readonlyRootfs then
    [{ ruleID := "DOCKER-SEC-006", ruleName := "Read-Only Root Filesystem",
       category := "Docker Security", severity := "medium", status := .failed,
       resource := name,
       message := "Container has writable root filesystem",
       remediation := "Use --read-only flag" }]
  else [])

/-- The container name computation in `checkContainerSecurity`:
`Names[0]` with a leading slash stripped. -/
def dockerContainerName (c : DockerContainerEntry) : String :=
  let name := c.names.headD ""
  if goStartsWith name "/" then name.drop 1 else name

/-- The container loop of `DockerChecker.checkContainerSecurity`; an
inspect failure skips the container. -/
def checkContainerSecurity : List DockerContainerEntry → List CheckResult
  | [] => []
  | c :: cs =>
    (match c.inspect with
     | none => []
     | some inspect => dockerContainerChecks (dockerContainerName c) inspect)
    ++ checkContainerSecurity cs

/-- The fields of the `ImageInspectWithRaw` response read by
`DockerChecker.checkImage`. -/
structure DockerImageInspect where
  repoTags : List String := []
  size : Int := 0
  configUser : String := ""
  exposedPorts : List Nat := []
deriving DecidableEq, Repr

/-- The exposed-port loop of rule DOCKER-IMG-004: one failed result per
port below 1024. -/
def exposedPortsLoop (resource : String) : List Nat → List CheckResult
  | [] => []
  | port :: ports =>
    (if port < 1024 then
      [{ ruleID := "DOCKER-IMG-004", ruleName := "Privileged Ports",
         category := "Docker Images", severity := "low", status := .failed,
         resource := resource,
         message := "Image exposes privileged port: " ++ toString port,
         remediation := "Use ports > 1024" }]
    else [])
    ++ exposedPortsLoop resource ports

/-- `DockerChecker.checkImage` on a successfully inspected image (rules
DOCKER-IMG-001 … DOCKER-IMG-004); the tag loop breaks after the first
`:latest` tag, so at most one DOCKER-IMG-001 result is emitted. -/
def checkImage (imageName : String) (inspect : DockerImageInspect) : List CheckResult :=
  let resource := imageName
  (if inspect.repoTags.any (fun tag => goHasSuffix tag ":latest") then
    [{ ruleID := "DOCKER-IMG-001", ruleName := "No Latest Tag",
       category := "Docker Images", severity := "medium", status := .failed,
       resource := resource,
       message := "Image uses 'latest' tag",
       remediation := "Use specific version tags" }]
  else [])
  ++
  (if 1000 < Int.tdiv inspect.size (1024 * 1024) then
    [{ ruleID := "DOCKER-IMG-002", ruleName := "Image Size",
       category := "Docker Images", severity := "low", status := .failed,
       resource := resource,
       message := "Image is large: " ++ toString (Int.tdiv inspect.size (1024 * 1024)) ++ " MB",
       remediation := "Use multi-stage builds or smaller base images" }]
  else [])
  ++
  (if inspect.configUser = "" ∨ inspect.configUser = "root" ∨ inspect.configUser = "0" then
    [{ ruleID := "DOCKER-IMG-003", ruleName := "Non-Root User in Image",
       category := "Docker Images", severity := "medium", status := .failed,
       resource := resource,
       message := "Image runs as root by default",
       remediation := "Add USER directive in Dockerfile" }]
  else [])
  ++ exposedPortsLoop resource inspect.exposedPorts

/-- The external inputs of one `DockerChecker.Run` call: whether
`client.NewClientWithOpts` succeeds, the `ContainerList` outcome, and the
`ImageInspectWithRaw` outcome for the configured image. -/
structure DockerEnv where
  clientOk : Bool := true
  containerList : Except Unit (List DockerContainerEntry) := .ok []
  imageInspect : Except Unit DockerImageInspect := .error ()

/-- `DockerChecker.Run`: a failing client construction aborts with an
error; a failing `checkContainerSecurity` or `checkImage` is silently
skipped (`if err == nil`), and the image checks run only when an image
name is configured. -/
def dockerRun (env : DockerEnv) (opts : CheckOptions) : Except Unit (List CheckResult) :=
  if ¬ env.clientOk then .error ()
  else
    let results :=
      (match env.containerList with
       | .ok containers => checkContainerSecurity containers
       | .error _ => [])
    let results :=
      if opts.image ≠ "" then
        results ++
          (match env.imageInspect with
           | .ok inspect => checkImage opts.image inspect
           | .error _ => [])
      else results
    .ok results

/-! ## File checker (`FileChecker` in `pkg/compliance/file_checker.go`)

The filesystem walk is abstracted as the sequence of callback
invocations `filepath.Walk` performs: an error entry (`err != nil`), a
directory, or a file. For a file, the classification predicates
(`isKubernetesManifest`, `isDockerfile`, `isDockerCompose` — filename
and content sniffing) and the read/parse outcomes consumed by the three
check functions are carried as fields, since they are filesystem I/O;
the rule evaluation on the parsed values is translated from the source. -/

/-- One container entry of a parsed manifest, reduced to the fields
`checkKubernetesManifest` reads (`hasResources` models
`container["resources"]` asserting to a non-nil map, `hasLimits` the
nested `resources["limits"]` map). -/
structure ManifestContainer where
  name : String := ""
  image : String := ""
  hasResources : Bool := false
  hasLimits : Bool := false
  hasSecurityContext : Bool := false
  hasLivenessProbe : Bool := false
deriving DecidableEq, Repr

/-- The `template.spec` level of a manifest (`getNestedMap(template, "spec")`;
`none` models a missing or non-map value). -/
structure ManifestPodSpec where
  containers : List ManifestContainer := []
deriving DecidableEq, Repr

/-- The `spec.template` level of a manifest. -/
structure ManifestTemplate where
  spec : Option ManifestPodSpec := none
deriving DecidableEq, Repr

/-- The top-level `spec` map of a manifest: its `containers` list and its
optional `template` submap. -/
structure ManifestSpec where
  containers : List ManifestContainer := []
  template : Option ManifestTemplate := none
deriving DecidableEq, Repr

/-- A parsed Kubernetes manifest (`kind` plus the `spec` map). -/
structure K8sManifest where
  kind : String := ""
  spec : Option ManifestSpec := none
deriving DecidableEq, Repr

/-- The per-container rule block of `FileChecker.checkKubernetesManifest`
(FILE-K8S-001 … FILE-K8S-004). The two `resources`/`limits` branches emit
the same FILE-K8S-002 result. -/
def manifestContainerChecks (resource : String) (container : ManifestContainer) : List CheckResult :=
  (if goHasSuffix container.image ":latest" || ¬ goContains container.image ":" then
    [{ ruleID := "FILE-K8S-001", ruleName := "No Latest Tag",
       category := "File Compliance", severity := "medium", status := .failed,
       resource := resource,
       message := "Container '" ++ container.name ++ "' uses latest or no tag",
       remediation := "Use specific image tags" }]
  else [])
  ++
  (if ¬ container.hasResources then
    [{ ruleID := "FILE-K8S-002", ruleName := "Resource Limits",
       category := "File Compliance", severity := "medium", status := .failed,
       resource := resource,
       message := "Container '" ++ container.name ++ "' has no resource limits",
       remediation := "Add resources.limits" }]
  else if ¬ container.hasLimits then
    [{ ruleID := "FILE-K8S-002", ruleName := "Resource Limits",
       category := "File Compliance", severity := "medium", status := .failed,
       resource := resource,
       message := "Container '" ++ container.name ++ "' has no resource limits",
       remediation := "Add resources.limits" }]
  else [])
  ++
  (if ¬ container.hasSecurityContext then
    [{ ruleID := "FILE-K8S-003", ruleName := "Security Context",
       category := "File Compliance", severity := "high", status := .failed,
       resource := resource,
       message := "Container '" ++ container.name ++ "' has no securityContext",
       remediation := "Add securityContext with runAsNonRoot: true" }]
  else [])
  ++
  (if ¬ container.hasLivenessProbe then
    [{ ruleID := "FILE-K8S-004", ruleName := "Liveness Probe",
       category := "File Compliance", severity := "medium", status := .failed,
       resource := resource,
       message := "Container '" ++ container.name ++ "' has no livenessProbe",
       remediation := "Add livenessProbe" }]
  else [])

/-- The container loop of `checkKubernetesManifest`. -/
def manifestContainersLoop (resource : String) : List ManifestContainer → List CheckResult
  | [] => []
  | c :: cs => manifestContainerChecks resource c ++ manifestContainersLoop resource cs

/-- `FileChecker.checkKubernetesManifest` on a parsed manifest: only
workload kinds are checked; for non-Pod kinds the pod template spec is
unwrapped when a `template` map is present (otherwise the outer spec is
used unchanged, as in the source). -/
def checkKubernetesManifest (path : String) (m : K8sManifest) : List CheckResult :=
  if m.kind = "Deployment" ∨ m.kind = "Pod" ∨ m.kind = "StatefulSet" ∨ m.kind = "DaemonSet" then
    match m.spec with
    | none => []
    | some spec =>
      let inner : Option ManifestPodSpec :=
        if m.kind ≠ "Pod" then
          match spec.template with
          | some t => t.spec
          | none => some { containers := spec.containers }
        else some { containers := spec.containers }
      match inner with
      | none => []
      | some podSpec => manifestContainersLoop path podSpec.containers
  else []

/-- The per-line result block of `FileChecker.checkDockerfile`
(FILE-DOCKER-001 on `ADD` of local non-archive files, FILE-DOCKER-002 on
downloads without same-line cleanup). -/
def dockerfileLineChecks (resource rawLine : String) : List CheckResult :=
  let line := rawLine.trim
  let upperLine := line.toUpper
  (if goStartsWith upperLine "ADD " ∧ ¬ goContains line "http" ∧ ¬ goContains line ".tar" then
    [{ ruleID := "FILE-DOCKER-001", ruleName := "Use COPY Instead of ADD",
       category := "File Compliance", severity := "low", status := .failed,
       resource := resource,
       message := "Use COPY instead of ADD for local files",
       remediation := "Replace ADD with COPY for local files" }]
  else [])
  ++
  (if (goContains line "curl" ∨ goContains line "wget") ∧
      (¬ goContains line "&&" ∨ ¬ goContains line "rm") then
    [{ ruleID := "FILE-DOCKER-002", ruleName := "Clean Up Downloads",
       category := "File Compliance", severity := "low", status := .failed,
       resource := resource,
       message := "Downloaded files should be cleaned up in same layer",
       remediation := "Combine download and cleanup in single RUN command" }]
  else [])

/-- The per-line loop of `checkDockerfile`. -/
def dockerfileLinesLoop (resource : String) : List String → List CheckResult
  | [] => []
  | line :: rest => dockerfileLineChecks resource line ++ dockerfileLinesLoop resource rest

/-- The `hasUser` flag of `checkDockerfile`. -/
def dockerfileHasUser (lines : List String) : Bool :=
  lines.any (fun rawLine => goStartsWith rawLine.trim.toUpper "USER ")

/-- The `hasHealthcheck` flag of `checkDockerfile`. -/
def dockerfileHasHealthcheck (lines : List String) : Bool :=
  lines.any (fun rawLine => goStartsWith rawLine.trim.toUpper "HEALTHCHECK ")

/-- The `usesLatest` flag of `checkDockerfile`: a `FROM` line whose
(trimmed) text ends in `:latest` or has no colon. -/
def dockerfileUsesLatest (lines : List String) : Bool :=
  lines.any (fun rawLine =>
    let line := rawLine.trim
    goStartsWith line.toUpper "FROM " && (goHasSuffix line ":latest" || ¬ goContains line ":"))

/-- `FileChecker.checkDockerfile` on the file's lines: the per-line
results followed by the whole-file FILE-DOCKER-003/004/005 checks. -/
def checkDockerfile (path : String) (lines : List String) : List CheckResult :=
  dockerfileLinesLoop path lines
  ++
  (if ¬ dockerfileHasUser lines then
    [{ ruleID := "FILE-DOCKER-003", ruleName := "USER Directive",
       category := "File Compliance", severity := "high", status := .failed,
       resource := path,
       message := "Dockerfile has no USER directive",
       remediation := "Add USER directive to run as non-root" }]
  else [])
  ++
  (if ¬ dockerfileHasHealthcheck lines then
    [{ ruleID := "FILE-DOCKER-004", ruleName := "HEALTHCHECK Directive",
       category := "File Compliance", severity := "medium", status := .failed,
       resource := path,
       message := "Dockerfile has no HEALTHCHECK",
       remediation := "Add HEALTHCHECK directive" }]
  else [])
  ++
  (if dockerfileUsesLatest lines then
    [{ ruleID := "FILE-DOCKER-005", ruleName := "Specific Base Image Tag",
       category := "File Compliance", severity := "medium", status := .failed,
       resource := path,
       message := "Base image uses 'latest' or no tag",
       remediation := "Use specific version tag for base image" }]
  else [])

/-- One parsed compose service, reduced to the fields
`checkDockerCompose` reads (an `Option` models a key that is absent or
of the wrong type for the Go type assertion). -/
structure ComposeService where
  privileged : Option Bool := none
  networkMode : Option String := none
  hasRestart : Bool := false
  hasDeploy : Bool := false
  image : Option String := none
deriving DecidableEq, Repr

/-- The per-service rule block of `FileChecker.checkDockerCompose`
(FILE-COMPOSE-001 … FILE-COMPOSE-004). -/
def composeServiceChecks (resource serviceName : String) (service : ComposeService) : List CheckResult :=
  (if service.privileged = some true then
    [{ ruleID := "FILE-COMPOSE-001", ruleName := "No Privileged Services",
       category := "File Compliance", severity := "critical", status := .failed,
       resource := resource,
       message := "Service '" ++ serviceName ++ "' is privileged",
       remediation := "Remove privileged: true" }]
  else [])
  ++
  (if service.networkMode = some "host" then
    [{ ruleID := "FILE-COMPOSE-002", ruleName := "No Host Network",
       category := "File Compliance", severity := "high", status := .failed,
       resource := resource,
       message := "Service '" ++ serviceName ++ "' uses host network",
       remediation := "Use bridge network" }]
  else [])
  ++
  (if ¬ service.hasRestart ∧ ¬ service.hasDeploy then
    [{ ruleID := "FILE-COMPOSE-003", ruleName := "Restart Policy",
       category := "File Compliance", severity := "low", status := .failed,
       resource := resource,
       message := "Service '" ++ serviceName ++ "' has no restart policy",
       remediation := "Add restart: unless-stopped" }]
  else [])
  ++
  (match service.image with
   | some image =>
     if goHasSuffix image ":latest" || ¬ goContains image ":" then
       [{ ruleID := "FILE-COMPOSE-004", ruleName := "Specific Image Tag",
          category := "File Compliance", severity := "medium", status := .failed,
          resource := resource,
          message := "Service '" ++ serviceName ++ "' uses latest or no tag",
          remediation := "Use specific image tag" }]
     else []
   | none => [])

/-- The service loop of `checkDockerCompose` (Go map iteration, modelled
as a list of name/service pairs). -/
def checkDockerCompose (path : String) : List (String × ComposeService) → List CheckResult
  | [] => []
  | (serviceName, service) :: rest =>
    composeServiceChecks path serviceName service ++ checkDockerCompose path rest

/-- A file reaching the walk callback: its classification results and the
read/parse outcome each check function would obtain (`Except.error ()`
models a read or YAML-parse failure, which the callback swallows). -/
structure FileEntry where
  path : String := ""
  isK8sManifest : Bool := false
  isDockerfileName : Bool := false
  isComposeName : Bool := false
  manifest : Except Unit K8sManifest := .error ()
  dockerfileLines : Except Unit (List String) := .error ()
  compose : Except Unit (List (String × ComposeService)) := .error ()

/-- One invocation of the `filepath.Walk` callback: a traversal error
(`err != nil`), a directory, or a file. -/
inductive WalkEvent where
  | errEvent
  | dirEvent
  | fileEvent (f : FileEntry)

/-- The walk callback of `FileChecker.Run`: every branch of the source
returns `nil`, so the error component here is always `none`. -/
def fileCallback (results : List CheckResult) (ev : WalkEvent) : List CheckResult × Option Unit :=
  match ev with
  | .errEvent => (results, none)
  | .dirEvent => (results, none)
  | .fileEvent f =>
    let results :=
      if f.isK8sManifest then
        match f.manifest with
        | .ok m => results ++ checkKubernetesManifest f.path m
        | .error _ => results
      else results
    let results :=
      if f.isDockerfileName then
        match f.dockerfileLines with
        | .ok lines => results ++ checkDockerfile f.path lines
        | .error _ => results
      else results
    let results :=
      if f.isComposeName then
        match f.compose with
        | .ok services => results ++ checkDockerCompose f.path services
        | .error _ => results
      else results
    (results, none)

/-- `filepath.Walk`'s contract as used here: invoke the callback on each
event in order, stop at and return the first non-nil callback error,
return `none` otherwise. -/
def goWalk (cb : List CheckResult → WalkEvent → List CheckResult × Option Unit) :
    List CheckResult → List WalkEvent → List CheckResult × Option Unit
  | acc, [] => (acc, none)
  | acc, e :: es =>
    match cb acc e with
    | (acc2, some err) => (acc2, some err)
    | (acc2, none) => goWalk cb acc2 es

/-- `FileChecker.Run`: walks the events and returns the accumulated
results together with the walk's error value. -/
def fileCheckerRun (events : List WalkEvent) : List CheckResult × Option Unit :=
  goWalk fileCallback [] events

/-! ## JUnit renderer (`generateJUnitReport` in `cmd/compliance/report.go`)

The renderer is modelled at the level of the attribute values and
elements it prints into the XML string. Go map iteration order over
`byCategory` is unspecified; the suites are modelled in order of first
occurrence of each category, and the grouped slice of a category is the
subsequence of `report.Results` with that category, which is what the
map-append grouping loop produces per key. -/

/-- One `testcase` element: `name=rule_id`, `classname=resource`, a
`failure` child (message, type=severity) for failed results, a
`skipped` child for skipped ones. -/
structure JUnitCase where
  name : String
  classname : String
  failure : Option (String × String) := none
  skippedChild : Bool := false
deriving DecidableEq, Repr

/-- The `testcase` built from one result. -/
def mkJUnitCase (r : CheckResult) : JUnitCase :=
  { name := r.ruleID
    classname := r.resource
    failure := if r.status = .failed then some (r.message, r.severity) else none
    skippedChild := r.status = .skipped }

/-- One `testsuite` element with its printed attributes. -/
structure JUnitSuite where
  name : String
  tests : Nat
  failures : Nat
  cases : List JUnitCase
deriving DecidableEq, Repr

/-- The top-level `testsuites` element with its printed attributes. -/
structure JUnitTestsuites where
  name : String
  tests : Nat
  failures : Nat
  suites : List JUnitSuite
deriving DecidableEq, Repr

/-- The distinct categories of the result list in order of first
occurrence (the key set of the `byCategory` map). -/
def categoriesOf (results : List CheckResult) : List String :=
  results.foldl
    (fun acc r => if acc.contains r.category then acc else acc ++ [r.category]) []

/-- The grouped slice of one category: the subsequence of the results
with that category, as built by `byCategory[r.Category] = append(...)`. -/
def categoryResults (results : List CheckResult) (category : String) : List CheckResult :=
  results.filter (fun r => r.category == category)

/-- The `failures` counting loop inside the suite loop of
`generateJUnitReport`. -/
def countFailedLoop (results : List CheckResult) : Nat :=
  results.foldl (fun failures r => if r.status = .failed then failures + 1 else failures) 0

/-- One `testsuite` element of `generateJUnitReport`:
`tests="len(results)"`, `failures="<counted>"`, one `testcase` per
grouped result. -/
def mkJUnitSuite (results : List CheckResult) (category : String) : JUnitSuite :=
  let grouped := categoryResults results category
  { name := category
    tests := grouped.length
    failures := countFailedLoop grouped
    cases := grouped.map mkJUnitCase }

/-- `generateJUnitReport`: top-level attributes
`tests="%d" failures="%d"` printed from `Summary.Total` and
`Summary.Failed`, then one suite per category. -/
def generateJUnitReport (report : Report) : JUnitTestsuites :=
  { name := "Compliance Checks"
    tests := report.summary.total
    failures := report.summary.failed
    suites := (categoriesOf report.results).map (mkJUnitSuite report.results) }

/-! ## Concrete sample inputs used by counterexamples and witnesses -/

/-- A single skipped result (any rule; only the status matters to the
summary loop). -/
def sampleSkippedResult : CheckResult :=
  { ruleID := "K8S-SEC-001", ruleName := "No Privileged Containers",
    category := "Kubernetes Security", severity := "critical", status := .skipped,
    resource := "default/pod-a", message := "skipped by policy" }

/-- A single warning-status result (the status constant `StatusWarning`
declared on the result type). -/
def sampleWarningResult : CheckResult :=
  { ruleID := "K8S-SEC-002", ruleName := "Run as Non-Root",
    category := "Kubernetes Security", severity := "high", status := .warning,
    resource := "default/pod-a", message := "may run as root" }

/-- A single passed result. -/
def samplePassedResult : CheckResult :=
  { ruleID := "K8S-SEC-001", ruleName := "No Privileged Containers",
    category := "Kubernetes Security", severity := "critical", status := .passed,
    resource := "default/pod-a", message := "Container 'app' is not privileged" }

/-- A single failed result. -/
def sampleFailedResult : CheckResult :=
  { ruleID := "K8S-SEC-004", ruleName := "No Host Network",
    category := "Kubernetes Security", severity := "high", status := .failed,
    resource := "default/pod-a", message := "Pod is using host network",
    remediation := "Set hostNetwork to false" }

/-- A pod with one container whose image pull policy is `Always` and
which is otherwise fully compliant for the `checkContainers` rules. -/
def samplePodAlways : K8sPod :=
  { ns := "default", name := "pod-a",
    containers := [{ name := "app", image := "nginx:1.25",
                     imagePullPolicy := "Always",
                     hasLivenessProbe := true, hasReadinessProbe := true }] }

/-- The K8S-IMG-002 result `checkContainers` emits for `samplePodAlways`. -/
def sampleImgPassResult : CheckResult :=
  { ruleID := "K8S-IMG-002", ruleName := "Image Pull Policy",
    category := "Kubernetes Best Practices", severity := "low", status := .passed,
    resource := "default/pod-a",
    message := "Container 'app' has ImagePullPolicy: Always" }

/-- A small concrete report used to exercise the JUnit renderer. -/
def sampleReport : Report :=
  buildReport "Compliance Report" 0 [samplePassedResult, sampleFailedResult, sampleWarningResult]

/-- The rule ids that some checker can emit but that have no entry in
`GetBuiltinPolicies`. -/
def uncoveredRuleIDs : List String :=
  [ "K8S-IMG-002", "K8S-RES-003", "K8S-RES-004",
    "DOCKER-IMG-004",
    "FILE-K8S-004", "FILE-DOCKER-001", "FILE-DOCKER-002", "FILE-DOCKER-005",
    "FILE-COMPOSE-002", "FILE-COMPOSE-003", "FILE-COMPOSE-004" ]

/-- A result satisfies the (amended) catalog-coverage property when its
rule id is one of the known uncovered ids or has exactly one catalog
entry. -/
def policyCoverageOk (r : CheckResult) : Bool :=
  decide (r.ruleID ∈ uncoveredRuleIDs ∨
    GetBuiltinPolicies.countP (fun p => p.id == r.ruleID) = 1)

/-- The pass/fail emission discipline of the cluster checker's
pod-security, container and resource-limit rules: a passed result is
K8S-SEC-001 or K8S-IMG-002, every K8S-IMG-002 result is passed, and any
result of another rule is failed. -/
def k8sEmissionOk (r : CheckResult) : Bool :=
  decide ((r.status = .passed → r.ruleID = "K8S-SEC-001" ∨ r.ruleID = "K8S-IMG-002") ∧
    (r.ruleID = "K8S-IMG-002" → r.status = .passed) ∧
    (r.ruleID ≠ "K8S-SEC-001" → r.ruleID ≠ "K8S-IMG-002" → r.status = .failed))

/-- A pod with one privileged container that satisfies the other two
pod-security rules. -/
def samplePrivilegedPod : K8sPod :=
  { ns := "default", name := "pod-a",
    containers := [{ name := "app",
                     securityContext := some { privileged := some true,
                                               runAsNonRoot := some true,
                                               readOnlyRootFilesystem := some true } }] }

/-- The K8S-SEC-001 failed result `checkPodSecurity` emits for
`samplePrivilegedPod`. -/
def sampleSec001Failed : CheckResult :=
  { ruleID := "K8S-SEC-001", ruleName := "No Privileged Containers",
    category := "Kubernetes Security", severity := "critical", status := .failed,
    resource := "default/pod-a",
    message := "Container 'app' is running in privileged mode",
    remediation := "Set securityContext.privileged to false" }

/-- A result whose severity string is none of the four recognized
levels. -/
def sampleUnknownSeverityResult : CheckResult :=
  { ruleID := "K8S-SEC-002", ruleName := "Run as Non-Root",
    category := "Kubernetes Security", severity := "warning", status := .failed,
    resource := "default/pod-a", message := "may run as root" }

/-! ## Helper lemmas -/

/-- The summary loop's `passed` counter counts the passed results. -/
theorem foldl_summaryStep_passed (results : List CheckResult) (acc : ReportSummary) :
    (results.foldl summaryStep acc).passed =
      acc.passed + results.countP (fun r => r.status == .passed) := by
  induction results generalizing acc with
  | nil => simp
  | cons r rest ih =>
    rw [List.foldl_cons, ih]
    cases hr : r.status <;> simp [summaryStep, hr, List.countP_cons]
    omega

/-- The summary loop's `failed` counter counts the failed results. -/
theorem foldl_summaryStep_failed (results : List CheckResult) (acc : ReportSummary) :
    (results.foldl summaryStep acc).failed =
      acc.failed + results.countP (fun r => r.status == .failed) := by
  induction results generalizing acc with
  | nil => simp
  | cons r rest ih =>
    rw [List.foldl_cons, ih]
    cases hr : r.status <;> simp [summaryStep, hr, List.countP_cons]
    omega

/-- The summary loop's `skipped` counter counts the skipped results. -/
theorem foldl_summaryStep_skipped (results : List CheckResult) (acc : ReportSummary) :
    (results.foldl summaryStep acc).skipped =
      acc.skipped + results.countP (fun r => r.status == .skipped) := by
  induction results generalizing acc with
  | nil => simp
  | cons r rest ih =>
    rw [List.foldl_cons, ih]
    cases hr : r.status <;> simp [summaryStep, hr, List.countP_cons]
    omega

/-- On a list without warning-status results, the three counted statuses
exhaust the list. -/
theorem countP_status_sum (results : List CheckResult)
    (h : ∀ r ∈ results, r.status ≠ .warning) :
    results.countP (fun r => r.status == .passed) +
      results.countP (fun r => r.status == .failed) +
      results.countP (fun r => r.status == .skipped) = results.length := by
  induction results with
  | nil => simp
  | cons r rest ih =>
    have hr := h r (List.mem_cons_self r rest)
    have hrest : ∀ x ∈ rest, x.status ≠ .warning := fun x hx => h x (List.mem_cons_of_mem _ hx)
    have ih' := ih hrest
    cases hst : r.status
    · simp [List.countP_cons, hst]; omega
    · simp [List.countP_cons, hst]; omega
    · simp [List.countP_cons, hst]; omega
    · exact absurd hst hr

/-- The `failures` loop of the JUnit renderer counts the failed results. -/
theorem foldl_countFailed (results : List CheckResult) (n : Nat) :
    results.foldl (fun failures r => if r.status = .failed then failures + 1 else failures) n =
      n + results.countP (fun r => r.status == .failed) := by
  induction results generalizing n with
  | nil => simp
  | cons r rest ih =>
    rw [List.foldl_cons, ih]
    by_cases hr : r.status = .failed <;> simp [hr, List.countP_cons]
    omega

/-- `countFailedLoop` in terms of `countP`. -/
theorem countFailedLoop_eq (results : List CheckResult) :
    countFailedLoop results = results.countP (fun r => r.status == .failed) := by
  simpa using foldl_countFailed results 0

/-- A result failing the keep predicate is not in the filter's output
(provided the fast path does not apply). -/
theorem not_mem_filterResults (opts : CheckOptions) (results : List CheckResult)
    (r : CheckResult)
    (hfast : ¬(opts.skipRules.length = 0 ∧ opts.onlyRules.length = 0 ∧ opts.minSeverity = ""))
    (hkeep : keepResult opts r = false) : r ∉ filterResults opts results := by
  intro hmem
  rw [filterResults, if_neg hfast] at hmem
  have := (List.mem_filter.mp hmem).2
  rw [hkeep] at this
  exact Bool.false_ne_true this

/-- The filter only ever drops results. -/
theorem mem_of_mem_filterResults (opts : CheckOptions) (results : List CheckResult)
    (r : CheckResult) (h : r ∈ filterResults opts results) : r ∈ results := by
  rw [filterResults] at h
  split at h
  · exact h
  · exact (List.mem_filter.mp h).1

/-- Every branch of the walk callback reports no error. -/
theorem fileCallback_error_none (acc : List CheckResult) (ev : WalkEvent) :
    (fileCallback acc ev).2 = none := by
  cases ev <;> rfl

/-- The walk never produces an error, whatever the accumulator. -/
theorem goWalk_error_none (events : List WalkEvent) :
    ∀ acc, (goWalk fileCallback acc events).2 = none := by
  induction events with
  | nil => intro acc; rfl
  | cons e es ih =>
    intro acc
    have hcb := fileCallback_error_none acc e
    rcases hfe : fileCallback acc e with ⟨acc2, err⟩
    rw [hfe] at hcb
    simp only at hcb
    subst hcb
    simp only [goWalk, hfe]
    exact ih acc2

/-! ## Claims -/

/-- C1: the claim says `summary.score` is `0` when the denominator
`total - skipped` is `0`, in particular for a non-empty all-skipped
result list. The code guards only `Total > 0`, so for one skipped
result it computes `float64(0)/float64(0)*100`, which is `NaN`, not `0`:
the report built from a single skipped result has `total = 1`,
`skipped = 1` (denominator `0`) and score `NaN ≠ 0`. -/
theorem C1_all_skipped_score_is_nan :
    (buildReport "Compliance Report" 0 [sampleSkippedResult]).summary.total = 1 ∧
    (buildReport "Compliance Report" 0 [sampleSkippedResult]).summary.skipped = 1 ∧
    (buildReport "Compliance Report" 0 [sampleSkippedResult]).summary.score = GoFloat.nan ∧
    GoFloat.nan ≠ GoFloat.val 0 := by
  refine ⟨rfl, rfl, rfl, ?_⟩
  intro h
  exact GoFloat.noConfusion h

/-- C3 (counterexample): for the report built from a single
warning-status result, `summary.total = 1` while
`passed + failed + skipped = 0`, so the claimed invariant
`passed + failed + skipped == total` fails for the warning status. -/
theorem C3_warning_breaks_sum :
    (buildReport "Compliance Report" 0 [sampleWarningResult]).summary.total = 1 ∧
    ¬ ((buildReport "Compliance Report" 0 [sampleWarningResult]).summary.passed +
        (buildReport "Compliance Report" 0 [sampleWarningResult]).summary.failed +
        (buildReport "Compliance Report" 0 [sampleWarningResult]).summary.skipped =
        (buildReport "Compliance Report" 0 [sampleWarningResult]).summary.total) := by
  refine ⟨rfl, ?_⟩
  decide

/-- C3 (amended): for every report built by the report builder,
`summary.total` equals the length of the result list; and whenever no
result carries the warning status, `passed + failed + skipped = total`.
A warning-status result counts in `total` but in none of the three
counters. -/
theorem C3_summary_invariant (title : String) (t : Nat) (results : List CheckResult) :
    (buildReport title t results).summary.total = results.length ∧
    ((∀ r ∈ results, r.status ≠ .warning) →
      (buildReport title t results).summary.passed +
        (buildReport title t results).summary.failed +
        (buildReport title t results).summary.skipped =
        (buildReport title t results).summary.total) := by
  constructor
  · rfl
  · intro h
    show (summarize results).passed + (summarize results).failed +
      (summarize results).skipped = results.length
    rw [summarize, foldl_summaryStep_passed, foldl_summaryStep_failed,
      foldl_summaryStep_skipped]
    simpa using countP_status_sum results h

/-- C3 witness: the amended invariant evaluated on a concrete
passed/failed/skipped triple. -/
theorem C3_summary_invariant_witness :
    (buildReport "Compliance Report" 0
        [samplePassedResult, sampleFailedResult, sampleSkippedResult]).summary.passed +
      (buildReport "Compliance Report" 0
        [samplePassedResult, sampleFailedResult, sampleSkippedResult]).summary.failed +
      (buildReport "Compliance Report" 0
        [samplePassedResult, sampleFailedResult, sampleSkippedResult]).summary.skipped =
      (buildReport "Compliance Report" 0
        [samplePassedResult, sampleFailedResult, sampleSkippedResult]).summary.total :=
  (C3_summary_invariant "Compliance Report" 0
    [samplePassedResult, sampleFailedResult, sampleSkippedResult]).2 (by decide)

/-- C7 (counterexample): with a successfully constructed client whose
`ContainerList` call fails (the runtime cannot be reached to obtain the
container list) and no image configured, `DockerChecker.Run` returns a
nil error and an empty result list instead of an error. -/
theorem C7_list_failure_is_swallowed :
    dockerRun { clientOk := true, containerList := .error (), imageInspect := .error () } {} =
      .ok [] := rfl

/-- C7 (amended): a failure to construct the runtime client aborts
`DockerChecker.Run` with an error; but a failure of the container-list
query itself is swallowed, and (with no image configured) `Run` returns
a nil error with no results. -/
theorem C7_run_error_behavior (env : DockerEnv) (opts : CheckOptions) :
    (env.clientOk = false → dockerRun env opts = .error ()) ∧
    (env.clientOk = true → env.containerList = .error () → opts.image = "" →
      dockerRun env opts = .ok []) := by
  constructor
  · intro h
    simp [dockerRun, h]
  · intro h1 h2 h3
    simp [dockerRun, h1, h2, h3]

/-- C7 witness: both branches of the amended behaviour at concrete
environments. -/
theorem C7_run_error_behavior_witness :
    dockerRun { clientOk := false, containerList := .ok [], imageInspect := .error () } {} =
        .error () ∧
    dockerRun { clientOk := true, containerList := .error (), imageInspect := .error () } {} =
        .ok [] :=
  ⟨(C7_run_error_behavior
      { clientOk := false, containerList := .ok [], imageInspect := .error () } {}).1 rfl,
   (C7_run_error_behavior
      { clientOk := true, containerList := .error (), imageInspect := .error () } {}).2
      rfl rfl rfl⟩

/-- C8: the result filter is idempotent for every option combination and
result list. -/
theorem C8_filter_idempotent (opts : CheckOptions) (results : List CheckResult) :
    filterResults opts (filterResults opts results) = filterResults opts results := by
  by_cases h : (opts.skipRules.length = 0 ∧ opts.onlyRules.length = 0 ∧ opts.minSeverity = "")
  · simp [filterResults, h]
  · simp only [filterResults, if_neg h]
    apply List.filter_eq_self.mpr
    intro a ha
    exact (List.mem_filter.mp ha).2

/-- C9: `FileChecker.Run` returns a nil error on every walk — traversal
errors, read errors and parse errors are all swallowed inside the
callback — and an error entry (for example a nonexistent root)
contributes nothing to the results. -/
theorem C9_file_checker_error_nil (events : List WalkEvent) :
    (fileCheckerRun events).2 = none ∧
    fileCheckerRun (WalkEvent.errEvent :: events) = fileCheckerRun events := by
  exact ⟨goWalk_error_none events [], rfl⟩

/-- C4: the result filter evaluates the skip-list first, so a result
whose rule id is in both the skip-list and the only-list is dropped for
every input list. -/
theorem C4_skip_wins (opts : CheckOptions) (results : List CheckResult) (r : CheckResult)
    (hskip : r.ruleID ∈ opts.skipRules) (_honly : r.ruleID ∈ opts.onlyRules) :
    r ∉ filterResults opts results := by
  apply not_mem_filterResults
  · rintro ⟨h1, -, -⟩
    rw [List.length_eq_zero] at h1
    rw [h1] at hskip
    exact List.not_mem_nil _ hskip
  · unfold keepResult
    have hany : opts.skipRules.any (fun skipRule => r.ruleID = skipRule) = true := by
      rw [List.any_eq_true]
      exact ⟨r.ruleID, hskip, by simp⟩
    simp [hany]

/-- C4 witness: a rule id in both lists, appearing once in the input, is
excluded from the output. -/
theorem C4_skip_wins_witness :
    sampleFailedResult ∉
      filterResults
        { skipRules := ["K8S-SEC-004"], onlyRules := ["K8S-SEC-004"] }
        [sampleFailedResult] :=
  C4_skip_wins
    { skipRules := ["K8S-SEC-004"], onlyRules := ["K8S-SEC-004"] }
    [sampleFailedResult] sampleFailedResult (by decide) (by decide)

/-- C10: any severity string outside the four recognized levels gets
map level `0`, strictly below `low`, so such a result is dropped
whenever the minimum severity is one of the four recognized levels. -/
theorem C10_unknown_severity_dropped (opts : CheckOptions) (results : List CheckResult)
    (r : CheckResult)
    (hmin : opts.minSeverity ∈ ["low", "medium", "high", "critical"])
    (hsev : r.severity ∉ ["low", "medium", "high", "critical"]) :
    r ∉ filterResults opts results := by
  have hsev' : r.severity ≠ "low" ∧ r.severity ≠ "medium" ∧ r.severity ≠ "high" ∧
      r.severity ≠ "critical" := by
    simp only [List.mem_cons, List.not_mem_nil, or_false] at hsev
    push_neg at hsev
    exact hsev
  have hlvl0 : severityLevel r.severity = 0 := by
    unfold severityLevel
    rw [if_neg hsev'.1, if_neg hsev'.2.1, if_neg hsev'.2.2.1, if_neg hsev'.2.2.2]
  have hlvlmin : 1 ≤ severityLevel opts.minSeverity := by
    simp only [List.mem_cons, List.not_mem_nil, or_false] at hmin
    rcases hmin with h | h | h | h <;> rw [h] <;> decide
  have hminne : opts.minSeverity ≠ "" := by
    intro h
    rw [h] at hlvlmin
    exact absurd hlvlmin (by decide)
  have hmeets : meetsMinSeverity r.severity opts.minSeverity = false := by
    unfold meetsMinSeverity
    rw [hlvl0]
    simp only [decide_eq_false_iff_not]
    omega
  apply not_mem_filterResults
  · rintro ⟨-, -, h3⟩
    exact hminne h3
  · unfold keepResult
    rw [hmeets]
    simp [hminne]

/-- C10 witness: with minimum severity `low`, a result with the
unrecognized severity string `warning` is dropped. -/
theorem C10_unknown_severity_dropped_witness :
    sampleUnknownSeverityResult ∉
      filterResults { minSeverity := "low" } [sampleUnknownSeverityResult] :=
  C10_unknown_severity_dropped { minSeverity := "low" } [sampleUnknownSeverityResult]
    sampleUnknownSeverityResult (by decide) (by decide)

/-- C5: in the JUnit rendering of any report, the top-level `tests` and
`failures` attributes equal `summary.total` and `summary.failed`, and
each per-category suite's `tests` and `failures` attributes equal the
number of results of that category and the number of failed results of
that category. -/
theorem C5_junit_counts (report : Report) :
    (generateJUnitReport report).tests = report.summary.total ∧
    (generateJUnitReport report).failures = report.summary.failed ∧
    ∀ suite ∈ (generateJUnitReport report).suites,
      suite.tests =
        (report.results.filter (fun r => r.category == suite.name)).length ∧
      suite.failures =
        (report.results.filter (fun r => r.category == suite.name)).countP
          (fun r => r.status == .failed) := by
  refine ⟨rfl, rfl, ?_⟩
  intro suite hsuite
  simp only [generateJUnitReport, List.mem_map] at hsuite
  obtain ⟨cat, hcat, rfl⟩ := hsuite
  refine ⟨rfl, ?_⟩
  simpa [mkJUnitSuite, categoryResults] using
    countFailedLoop_eq (categoryResults report.results cat)

/-- C5 witness: the suite-level counts evaluated on a concrete report
with one category containing one passed, one failed and one warning
result. -/
theorem C5_junit_counts_witness :
    (mkJUnitSuite sampleReport.results "Kubernetes Security").tests =
      (sampleReport.results.filter
        (fun r => r.category == (mkJUnitSuite sampleReport.results "Kubernetes Security").name)).length ∧
    (mkJUnitSuite sampleReport.results "Kubernetes Security").failures =
      (sampleReport.results.filter
        (fun r => r.category == (mkJUnitSuite sampleReport.results "Kubernetes Security").name)).countP
        (fun r => r.status == .failed) :=
  (C5_junit_counts sampleReport).2.2 _ (by decide)

/-! ### Emission-shape lemmas for the cluster checker -/

/-- Lifting a per-container property through the pod-security container
loop. -/
theorem podSecContainersLoop_all (p : CheckResult → Bool) (res : String)
    (hbody : ∀ c, (podSecContainerChecks res c).all p = true) :
    ∀ cs : List K8sContainer, (podSecContainersLoop res cs).all p = true := by
  intro cs
  induction cs with
  | nil => rfl
  | cons c cs ih => simp [podSecContainersLoop, List.all_append, hbody c, ih]

/-- Lifting a per-container property through the `checkContainers`
loop. -/
theorem containersLoop_all (p : CheckResult → Bool) (res : String)
    (hbody : ∀ c, (containersChecks res c).all p = true) :
    ∀ cs : List K8sContainer, (containersLoop res cs).all p = true := by
  intro cs
  induction cs with
  | nil => rfl
  | cons c cs ih => simp [containersLoop, List.all_append, hbody c, ih]

/-- Lifting a per-container property through the resource-limits loop. -/
theorem resourceLimitsLoop_all (p : CheckResult → Bool) (res : String)
    (hbody : ∀ c, (resourceLimitChecks res c).all p = true) :
    ∀ cs : List K8sContainer, (resourceLimitsLoop res cs).all p = true := by
  intro cs
  induction cs with
  | nil => rfl
  | cons c cs ih => simp [resourceLimitsLoop, List.all_append, hbody c, ih]

/-- Every result of the pod-security container rules respects the
emission discipline. -/
theorem podSecContainerChecks_emission (res : String) (c : K8sContainer) :
    (podSecContainerChecks res c).all k8sEmissionOk = true := by
  unfold podSecContainerChecks
  repeat' split
  all_goals rfl

/-- Every result of `checkPodSecurity`'s per-pod block respects the
emission discipline. -/
theorem podSecPodChecks_emission (pod : K8sPod) :
    (podSecPodChecks pod).all k8sEmissionOk = true := by
  unfold podSecPodChecks
  simp only [List.all_append, Bool.and_eq_true]
  refine ⟨⟨podSecContainersLoop_all k8sEmissionOk _
    (fun c => podSecContainerChecks_emission _ c) pod.containers, ?_⟩, ?_⟩
  · split <;> rfl
  · split <;> rfl

/-- Every result of `checkPodSecurity` respects the emission
discipline. -/
theorem checkPodSecurity_emission (pods : List K8sPod) :
    (checkPodSecurity pods).all k8sEmissionOk = true := by
  induction pods with
  | nil => rfl
  | cons pod pods ih =>
    simp [checkPodSecurity, List.all_append, podSecPodChecks_emission pod, ih]

/-- Every result of the `checkContainers` per-container rules respects
the emission discipline. -/
theorem containersChecks_emission (res : String) (c : K8sContainer) :
    (containersChecks res c).all k8sEmissionOk = true := by
  unfold containersChecks
  repeat' split
  all_goals rfl

/-- Every result of `checkContainers` respects the emission
discipline. -/
theorem checkContainers_emission (pods : List K8sPod) :
    (checkContainers pods).all k8sEmissionOk = true := by
  induction pods with
  | nil => rfl
  | cons pod pods ih =>
    simp [checkContainers, List.all_append, ih,
      containersLoop_all k8sEmissionOk _ (fun c => containersChecks_emission _ c)]

/-- Every result of the resource-limit rules respects the emission
discipline. -/
theorem resourceLimitChecks_emission (res : String) (c : K8sContainer) :
    (resourceLimitChecks res c).all k8sEmissionOk = true := by
  unfold resourceLimitChecks
  repeat' split
  all_goals rfl

/-- Every result of `checkResourceLimits` respects the emission
discipline. -/
theorem checkResourceLimits_emission (pods : List K8sPod) :
    (checkResourceLimits pods).all k8sEmissionOk = true := by
  induction pods with
  | nil => rfl
  | cons pod pods ih =>
    simp [checkResourceLimits, List.all_append, ih,
      resourceLimitsLoop_all k8sEmissionOk _ (fun c => resourceLimitChecks_emission _ c)]

/-- C6 (counterexample): the image-pull-policy rule K8S-IMG-002 — a
per-container rule of the cluster checker distinct from K8S-SEC-001 —
emits an explicit passed result for a container whose pull policy is
`Always`, refuting the claim that every per-container rule other than
K8S-SEC-001 emits failure-only results. -/
theorem C6_img002_emits_passed :
    sampleImgPassResult ∈ checkContainers [samplePodAlways] ∧
    sampleImgPassResult.ruleID = "K8S-IMG-002" ∧
    sampleImgPassResult.ruleID ≠ "K8S-SEC-001" ∧
    sampleImgPassResult.status = .passed := by
  refine ⟨?_, rfl, by decide, rfl⟩
  decide

/-- C6 (amended): over the cluster checker's pod-security, container and
resource-limit checks, K8S-SEC-001 is the only rule that emits both
passed and failed results; K8S-IMG-002 emits passed-only results; every
result of any other rule is failed. -/
theorem C6_emission_discipline (pods : List K8sPod) (r : CheckResult)
    (h : r ∈ checkPodSecurity pods ++ checkContainers pods ++ checkResourceLimits pods) :
    (r.status = .passed → r.ruleID = "K8S-SEC-001" ∨ r.ruleID = "K8S-IMG-002") ∧
    (r.ruleID = "K8S-IMG-002" → r.status = .passed) ∧
    (r.ruleID ≠ "K8S-SEC-001" → r.ruleID ≠ "K8S-IMG-002" → r.status = .failed) := by
  have hall : (checkPodSecurity pods ++ checkContainers pods ++
      checkResourceLimits pods).all k8sEmissionOk = true := by
    simp [List.all_append, checkPodSecurity_emission, checkContainers_emission,
      checkResourceLimits_emission]
  exact of_decide_eq_true (List.all_eq_true.mp hall r h)

/-- C6 witness: the discipline evaluated at the concrete K8S-IMG-002
passed result of a one-pod cluster. -/
theorem C6_emission_discipline_witness :
    (sampleImgPassResult.status = .passed →
      sampleImgPassResult.ruleID = "K8S-SEC-001" ∨ sampleImgPassResult.ruleID = "K8S-IMG-002") ∧
    (sampleImgPassResult.ruleID = "K8S-IMG-002" → sampleImgPassResult.status = .passed) ∧
    (sampleImgPassResult.ruleID ≠ "K8S-SEC-001" → sampleImgPassResult.ruleID ≠ "K8S-IMG-002" →
      sampleImgPassResult.status = .failed) :=
  C6_emission_discipline [samplePodAlways] sampleImgPassResult (by decide)

/-! ### Catalog-coverage lemmas -/

/-- Coverage of the pod-security container rules. -/
theorem podSecContainerChecks_cover (res : String) (c : K8sContainer) :
    (podSecContainerChecks res c).all policyCoverageOk = true := by
  unfold podSecContainerChecks
  repeat' split
  all_goals rfl

/-- Coverage of the pod-security per-pod block. -/
theorem podSecPodChecks_cover (pod : K8sPod) :
    (podSecPodChecks pod).all policyCoverageOk = true := by
  unfold podSecPodChecks
  simp only [List.all_append, Bool.and_eq_true]
  refine ⟨⟨podSecContainersLoop_all policyCoverageOk _
    (fun c => podSecContainerChecks_cover _ c) pod.containers, ?_⟩, ?_⟩
  · split <;> rfl
  · split <;> rfl

/-- Coverage of `checkPodSecurity`. -/
theorem checkPodSecurity_cover (pods : List K8sPod) :
    (checkPodSecurity pods).all policyCoverageOk = true := by
  induction pods with
  | nil => rfl
  | cons pod pods ih =>
    simp [checkPodSecurity, List.all_append, podSecPodChecks_cover pod, ih]

/-- Coverage of the `checkContainers` per-container rules. -/
theorem containersChecks_cover (res : String) (c : K8sContainer) :
    (containersChecks res c).all policyCoverageOk = true := by
  unfold containersChecks
  repeat' split
  all_goals rfl

/-- Coverage of `checkContainers`. -/
theorem checkContainers_cover (pods : List K8sPod) :
    (checkContainers pods).all policyCoverageOk = true := by
  induction pods with
  | nil => rfl
  | cons pod pods ih =>
    simp [checkContainers, List.all_append, ih,
      containersLoop_all policyCoverageOk _ (fun c => containersChecks_cover _ c)]

/-- Coverage of the resource-limit rules. -/
theorem resourceLimitChecks_cover (res : String) (c : K8sContainer) :
    (resourceLimitChecks res c).all policyCoverageOk = true := by
  unfold resourceLimitChecks
  repeat' split
  all_goals rfl

/-- Coverage of `checkResourceLimits`. -/
theorem checkResourceLimits_cover (pods : List K8sPod) :
    (checkResourceLimits pods).all policyCoverageOk = true := by
  induction pods with
  | nil => rfl
  | cons pod pods ih =>
    simp [checkResourceLimits, List.all_append, ih,
      resourceLimitsLoop_all policyCoverageOk _ (fun c => resourceLimitChecks_cover _ c)]

/-- Coverage of `checkNetworkPolicies`. -/
theorem checkNetworkPolicies_cover (optsNs : String) (nss : List K8sNamespace) :
    (checkNetworkPolicies optsNs nss).all policyCoverageOk = true := by
  induction nss with
  | nil => rfl
  | cons ns rest ih =>
    simp only [checkNetworkPolicies, List.all_append, Bool.and_eq_true]
    refine ⟨?_, ih⟩
    repeat' split
    all_goals rfl

/-- Coverage of `checkRBAC`. -/
theorem checkRBAC_cover (bs : List ClusterRoleBinding) :
    (checkRBAC bs).all policyCoverageOk = true := by
  induction bs with
  | nil => rfl
  | cons b rest ih =>
    simp only [checkRBAC, List.all_append, Bool.and_eq_true]
    refine ⟨?_, ih⟩
    repeat' split
    all_goals rfl

/-- Coverage of every result of a successful `K8sChecker.Run`. -/
theorem k8sRun_mem_cover (env : K8sEnv) (opts : CheckOptions) (rs : List CheckResult)
    (r : CheckResult) (hrun : k8sRun env opts = .ok rs) (hr : r ∈ rs) :
    policyCoverageOk r = true := by
  unfold k8sRun at hrun
  split at hrun
  · exact absurd hrun (by simp)
  · simp only [Except.ok.injEq] at hrun
    subst hrun
    have hr2 := mem_of_mem_filterResults _ _ _ hr
    have hall : ((match env.podsForSecurity with
          | .ok pods => checkPodSecurity pods
          | .error _ => [])
        ++ (match env.podsForContainers with
            | .ok pods => checkContainers pods
            | .error _ => [])
        ++ (match env.podsForResources with
            | .ok pods => checkResourceLimits pods
            | .error _ => [])
        ++ (match env.namespaces with
            | .ok nss => checkNetworkPolicies opts.ns nss
            | .error _ => [])
        ++ (match env.bindings with
            | .ok bs => checkRBAC bs
            | .error _ => [])).all policyCoverageOk = true := by
      simp only [List.all_append, Bool.and_eq_true]
      refine ⟨⟨⟨⟨?_, ?_⟩, ?_⟩, ?_⟩, ?_⟩
      · split
        · exact checkPodSecurity_cover _
        · rfl
      · split
        · exact checkContainers_cover _
        · rfl
      · split
        · exact checkResourceLimits_cover _
        · rfl
      · split
        · exact checkNetworkPolicies_cover _ _
        · rfl
      · split
        · exact checkRBAC_cover _
        · rfl
    exact List.all_eq_true.mp hall r hr2

/-- Coverage of the capability loop. -/
theorem capAddLoop_cover (name : String) (caps : List String) :
    (capAddLoop name caps).all policyCoverageOk = true := by
  induction caps with
  | nil => rfl
  | cons cap caps ih =>
    simp only [capAddLoop, List.all_append, Bool.and_eq_true]
    refine ⟨?_, ih⟩
    split <;> rfl

/-- Coverage of the Docker per-container rules. -/
theorem dockerContainerChecks_cover (name : String) (inspect : DockerContainerInspect) :
    (dockerContainerChecks name inspect).all policyCoverageOk = true := by
  unfold dockerContainerChecks
  simp only [List.all_append, Bool.and_eq_true]
  and_intros
  all_goals first
    | exact capAddLoop_cover name inspect.capAdd
    | (split <;> rfl)

/-- Coverage of `DockerChecker.checkContainerSecurity`. -/
theorem checkContainerSecurity_cover (cs : List DockerContainerEntry) :
    (checkContainerSecurity cs).all policyCoverageOk = true := by
  induction cs with
  | nil => rfl
  | cons c cs ih =>
    simp only [checkContainerSecurity, List.all_append, Bool.and_eq_true]
    refine ⟨?_, ih⟩
    split
    · rfl
    · exact dockerContainerChecks_cover _ _

/-- Coverage of the exposed-port loop. -/
theorem exposedPortsLoop_cover (resource : String) (ports : List Nat) :
    (exposedPortsLoop resource ports).all policyCoverageOk = true := by
  induction ports with
  | nil => rfl
  | cons port ports ih =>
    simp only [exposedPortsLoop, List.all_append, Bool.and_eq_true]
    refine ⟨?_, ih⟩
    split <;> rfl

/-- Coverage of `DockerChecker.checkImage`. -/
theorem checkImage_cover (imageName : String) (inspect : DockerImageInspect) :
    (checkImage imageName inspect).all policyCoverageOk = true := by
  unfold checkImage
  simp only [List.all_append, Bool.and_eq_true]
  and_intros
  all_goals first
    | exact exposedPortsLoop_cover _ inspect.exposedPorts
    | (split <;> rfl)

/-- Coverage of every result of a successful `DockerChecker.Run`. -/
theorem dockerRun_mem_cover (env : DockerEnv) (opts : CheckOptions) (rs : List CheckResult)
    (r : CheckResult) (hrun : dockerRun env opts = .ok rs) (hr : r ∈ rs) :
    policyCoverageOk r = true := by
  unfold dockerRun at hrun
  split at hrun
  · exact absurd hrun (by simp)
  · simp only [Except.ok.injEq] at hrun
    subst hrun
    apply List.all_eq_true.mp ?_ r hr
    split
    · simp only [List.all_append, Bool.and_eq_true]
      constructor
      · split
        · exact checkContainerSecurity_cover _
        · rfl
      · split
        · exact checkImage_cover _ _
        · rfl
    · split
      · exact checkContainerSecurity_cover _
      · rfl

/-- Lifting a per-container property through the manifest container
loop. -/
theorem manifestContainersLoop_all (p : CheckResult → Bool) (res : String)
    (hbody : ∀ c, (manifestContainerChecks res c).all p = true) :
    ∀ cs : List ManifestContainer, (manifestContainersLoop res cs).all p = true := by
  intro cs
  induction cs with
  | nil => rfl
  | cons c cs ih => simp [manifestContainersLoop, List.all_append, hbody c, ih]

/-- Coverage of the manifest per-container rules. -/
theorem manifestContainerChecks_cover (res : String) (c : ManifestContainer) :
    (manifestContainerChecks res c).all policyCoverageOk = true := by
  unfold manifestContainerChecks
  repeat' split
  all_goals rfl

/-- Coverage of `FileChecker.checkKubernetesManifest`. -/
theorem checkKubernetesManifest_cover (path : String) (m : K8sManifest) :
    (checkKubernetesManifest path m).all policyCoverageOk = true := by
  unfold checkKubernetesManifest
  dsimp only
  repeat' split
  all_goals first
    | rfl
    | exact manifestContainersLoop_all policyCoverageOk path
        (fun c => manifestContainerChecks_cover path c) _

/-- Coverage of the Dockerfile per-line rules. -/
theorem dockerfileLineChecks_cover (res line : String) :
    (dockerfileLineChecks res line).all policyCoverageOk = true := by
  unfold dockerfileLineChecks
  dsimp only
  repeat' split
  all_goals rfl

/-- Coverage of the Dockerfile line loop. -/
theorem dockerfileLinesLoop_cover (res : String) (lines : List String) :
    (dockerfileLinesLoop res lines).all policyCoverageOk = true := by
  induction lines with
  | nil => rfl
  | cons line lines ih =>
    simp [dockerfileLinesLoop, List.all_append, dockerfileLineChecks_cover res line, ih]

/-- Coverage of `FileChecker.checkDockerfile`. -/
theorem checkDockerfile_cover (path : String) (lines : List String) :
    (checkDockerfile path lines).all policyCoverageOk = true := by
  unfold checkDockerfile
  simp only [List.all_append, Bool.and_eq_true]
  and_intros
  all_goals first
    | exact dockerfileLinesLoop_cover path lines
    | (split <;> rfl)

/-- Coverage of the compose per-service rules. -/
theorem composeServiceChecks_cover (res sn : String) (svc : ComposeService) :
    (composeServiceChecks res sn svc).all policyCoverageOk = true := by
  unfold composeServiceChecks
  repeat' split
  all_goals rfl

/-- Coverage of `FileChecker.checkDockerCompose`. -/
theorem checkDockerCompose_cover (path : String) (services : List (String × ComposeService)) :
    (checkDockerCompose path services).all policyCoverageOk = true := by
  induction services with
  | nil => rfl
  | cons p rest ih =>
    rcases p with ⟨sn, svc⟩
    simp [checkDockerCompose, List.all_append, composeServiceChecks_cover path sn svc, ih]

/-- The walk callback preserves coverage of the accumulator. -/
theorem fileCallback_cover (acc : List CheckResult) (ev : WalkEvent)
    (h : acc.all policyCoverageOk = true) :
    ((fileCallback acc ev).1).all policyCoverageOk = true := by
  cases ev with
  | errEvent => exact h
  | dirEvent => exact h
  | fileEvent f =>
    simp only [fileCallback]
    repeat' split
    all_goals
      simp_all [List.all_append, checkKubernetesManifest_cover, checkDockerfile_cover,
        checkDockerCompose_cover]

/-- The walk preserves coverage. -/
theorem goWalk_cover (events : List WalkEvent) :
    ∀ acc : List CheckResult, acc.all policyCoverageOk = true →
      ((goWalk fileCallback acc events).1).all policyCoverageOk = true := by
  induction events with
  | nil => intro acc h; exact h
  | cons e es ih =>
    intro acc h
    have hcb := fileCallback_error_none acc e
    have hstep := fileCallback_cover acc e h
    rcases hfe : fileCallback acc e with ⟨acc2, err⟩
    rw [hfe] at hcb hstep
    simp only at hcb hstep
    subst hcb
    simp only [goWalk, hfe]
    exact ih acc2 hstep

/-- Coverage of every result of `FileChecker.Run`. -/
theorem fileCheckerRun_mem_cover (events : List WalkEvent) (r : CheckResult)
    (hr : r ∈ (fileCheckerRun events).1) : policyCoverageOk r = true :=
  List.all_eq_true.mp (goWalk_cover events [] rfl) r hr

/-- C2 (counterexample): `checkContainers` — run through a successful
`K8sChecker.Run` — emits a K8S-IMG-002 result, and the built-in policy
catalog has no entry whose id is K8S-IMG-002: an emitted rule id with
zero matching `Policy` entries. -/
theorem C2_emitted_rule_without_policy :
    k8sRun { podsForContainers := .ok [samplePodAlways] } {} = .ok [sampleImgPassResult] ∧
    GetBuiltinPolicies.countP (fun p => p.id == sampleImgPassResult.ruleID) = 0 := by
  exact ⟨rfl, by decide⟩

/-- C2 (amended): every rule id emitted by any of the three checkers has
exactly one matching entry in the built-in policy catalog, except the
eleven ids K8S-IMG-002, K8S-RES-003, K8S-RES-004, DOCKER-IMG-004,
FILE-K8S-004, FILE-DOCKER-001, FILE-DOCKER-002, FILE-DOCKER-005,
FILE-COMPOSE-002, FILE-COMPOSE-003 and FILE-COMPOSE-004, which have no
catalog entry at all. -/
theorem C2_policy_catalog_coverage (env : K8sEnv) (denv : DockerEnv)
    (opts dopts : CheckOptions) (events : List WalkEvent)
    (krs drs : List CheckResult) (r : CheckResult)
    (hmem : (k8sRun env opts = .ok krs ∧ r ∈ krs) ∨
            (dockerRun denv dopts = .ok drs ∧ r ∈ drs) ∨
            r ∈ (fileCheckerRun events).1)
    (hid : r.ruleID ∉ uncoveredRuleIDs) :
    GetBuiltinPolicies.countP (fun p => p.id == r.ruleID) = 1 := by
  have hok : policyCoverageOk r = true := by
    rcases hmem with ⟨hrun, hr⟩ | ⟨hrun, hr⟩ | hr
    · exact k8sRun_mem_cover env opts krs r hrun hr
    · exact dockerRun_mem_cover denv dopts drs r hrun hr
    · exact fileCheckerRun_mem_cover events r hr
  rcases of_decide_eq_true hok with h | h
  · exact absurd h hid
  · exact h

/-- C2 witness: the coverage property applied to the concrete
K8S-SEC-001 result emitted by a one-pod cluster run. -/
theorem C2_policy_catalog_coverage_witness :
    GetBuiltinPolicies.countP (fun p => p.id == sampleSec001Failed.ruleID) = 1 :=
  C2_policy_catalog_coverage { podsForSecurity := .ok [samplePrivilegedPod] } {} {} {} []
    [sampleSec001Failed] [] sampleSec001Failed
    (Or.inl ⟨rfl, by decide⟩) (by decide)

end DevopsToolkit
